import Mathlib

/-!
# Shallow embedding of the Titan2.0 scoring-and-sizing core (`src/core-rust`)

Rust `f64` values are modelled as exact rationals (`ℚ`); where the ranking
pipeline's behaviour on non-finite values matters, an explicit `F64` type with
infinities and signed NaN is used.  Rust `&str`/`String` values are modelled as
`List Char` (`Str`), with the string primitives used by the sources
(`trim`, `split`, `starts_with`, `contains`) re-implemented structurally.
`U256` values are modelled as `Nat` (the sizing paths proved about stay far
below `2^256`, where the Rust type would panic rather than wrap).
Fallible Rust functions returning `Result` are modelled with `Except`.
-/

namespace Titan

/-- Rust string slices are modelled as lists of characters. -/
abbrev Str := List Char

/-- Model of `str::trim`: drop leading and trailing whitespace. -/
def strTrim (cs : Str) : Str :=
  ((cs.dropWhile Char.isWhitespace).reverse.dropWhile Char.isWhitespace).reverse

/-- Model of `str::split(sep)` collected into a `Vec`: split on a separator
character; `n` separators yield `n + 1` fields. -/
def splitOnChar (sep : Char) : Str → List Str
  | [] => [[]]
  | c :: cs =>
    let rest := splitOnChar sep cs
    if c = sep then [] :: rest
    else
      match rest with
      | [] => [[c]]
      | f :: fs => (c :: f) :: fs

/-- Model of `str::starts_with(c)` for a single character. -/
def startsWithChar (c : Char) : Str → Bool
  | [] => false
  | d :: _ => d = c

/-- Model of `str::contains(pat)`: some suffix of the string has `pat` as a
leading segment. -/
def containsSub (pat : Str) : Str → Bool
  | [] => pat.isEmpty
  | c :: cs => pat.isPrefixOf (c :: cs) || containsSub pat cs

/-! ## `omniarb/matrix_parser.rs` — data model -/

/-- `TokenEntry` from `matrix_parser.rs` (one row of the token matrix). -/
structure TokenEntry where
  chain_origin : Nat
  chain_dest : Nat
  native_token : Str
  dex_origin : Str
  dex_dest : Str
  bridge_protocol : Str
  liquidity_score : ℚ
  fee_tier : ℚ
deriving DecidableEq

/-- `QuoteInfo` from `data_fetcher.rs`. -/
structure QuoteInfo where
  spread_percentage : ℚ
  slippage_estimate : ℚ
  gas_cost_usd : ℚ
  available_liquidity : ℚ
deriving DecidableEq

/-! ## `omniarb/tar_scorer.rs` -/

/-- `TIER_1_TOKENS` from `tar_scorer.rs`. -/
def TIER_1_TOKENS : List Str :=
  ["USDC".data, "USDT".data, "DAI".data, "ETH".data, "WETH".data, "WBTC".data]

/-- `TIER_2_TOKENS` from `tar_scorer.rs`. -/
def TIER_2_TOKENS : List Str :=
  ["MATIC".data, "AVAX".data, "BNB".data, "OP".data, "ARB".data, "LINK".data]

/-- `TIER_1_BRIDGES` from `tar_scorer.rs`. -/
def TIER_1_BRIDGES : List Str :=
  ["STARGATE".data, "ACROSS".data, "CCIP".data, "LIFI".data]

/-- `TIER_2_BRIDGES` from `tar_scorer.rs`. -/
def TIER_2_BRIDGES : List Str :=
  ["HOP".data, "SYNAPSE".data, "SOCKET".data, "LAYERZERO".data]

/-- `calculate_token_quality` from `tar_scorer.rs`: tier contribution plus a
liquidity contribution of `(liquidity_score / 100) * 15`. -/
def calculate_token_quality (token : Str) (liquidity_score : ℚ) : ℚ :=
  (if token ∈ TIER_1_TOKENS then (20 : ℚ)
   else if token ∈ TIER_2_TOKENS then 12
   else 5)
  + liquidity_score / 100 * 15

/-- `calculate_arbitrage_efficiency` from `tar_scorer.rs`: fee-tier ladder plus
spread ladder, both with strict comparisons. -/
def calculate_arbitrage_efficiency (fee_tier spread_percentage : ℚ) : ℚ :=
  (if fee_tier < 15/100 then (15 : ℚ)
   else if fee_tier < 30/100 then 10
   else if fee_tier < 50/100 then 5
   else 0)
  + (if spread_percentage > 2 then (20 : ℚ)
     else if spread_percentage > 1 then 15
     else if spread_percentage > 1/2 then 10
     else if spread_percentage > 1/5 then 5
     else 0)

/-- `calculate_risk_score` from `tar_scorer.rs`: bridge-tier ladder plus
slippage ladder, strict comparisons. -/
def calculate_risk_score (bridge : Str) (slippage : ℚ) : ℚ :=
  (if bridge ∈ TIER_1_BRIDGES then (15 : ℚ)
   else if bridge ∈ TIER_2_BRIDGES then 10
   else 5)
  + (if slippage < 1/2 then (15 : ℚ)
     else if slippage < 1 then 10
     else if slippage < 2 then 5
     else 0)

/-- `calculate_tar_score` from `tar_scorer.rs`: sum of the three components,
capped at 100 by `score.min(100.0)`. -/
def calculate_tar_score (entry : TokenEntry) (quote : QuoteInfo) : ℚ :=
  min (calculate_token_quality entry.native_token entry.liquidity_score
       + calculate_arbitrage_efficiency entry.fee_tier quote.spread_percentage
       + calculate_risk_score entry.bridge_protocol quote.slippage_estimate)
      100

/-! ## `omniarb/model_bridge.rs` -/

/-- `ModelFeatures` from `model_bridge.rs`. -/
structure ModelFeatures where
  liquidity_score : ℚ
  spread_score : ℚ
  bridge_score : ℚ
  token_score : ℚ
  slippage_penalty : ℚ
  gas_efficiency : ℚ

/-- `get_bridge_score` from `model_bridge.rs`. -/
def get_bridge_score (bridge : Str) : ℚ :=
  if bridge ∈ ["STARGATE".data, "ACROSS".data, "CCIP".data] then 90
  else if bridge ∈ ["HOP".data, "SYNAPSE".data, "LIFI".data, "SOCKET".data] then 75
  else if bridge ∈ ["LAYERZERO".data, "CELER".data] then 65
  else 50

/-- `get_token_score` from `model_bridge.rs`. -/
def get_token_score (token : Str) : ℚ :=
  if token ∈ ["USDC".data, "USDT".data, "DAI".data] then 95
  else if token ∈ ["ETH".data, "WETH".data, "WBTC".data] then 90
  else if token ∈ ["MATIC".data, "AVAX".data, "BNB".data, "OP".data, "ARB".data] then 80
  else if token ∈ ["LINK".data, "UNI".data, "AAVE".data] then 75
  else 60

/-- `extract_features` from `model_bridge.rs`. -/
def extract_features (entry : TokenEntry) (quote : QuoteInfo) : ModelFeatures where
  liquidity_score := entry.liquidity_score
  spread_score := min (quote.spread_percentage * 20) 100
  bridge_score := get_bridge_score entry.bridge_protocol
  token_score := get_token_score entry.native_token
  slippage_penalty := quote.slippage_estimate * 50
  gas_efficiency := (20 - min quote.gas_cost_usd 20) / 20 * 100

/-- `run_tar_onnx` from `model_bridge.rs` (predictor A): weighted blend,
clamped to `[0, 100]` by `prediction.min(100.0).max(0.0)`. -/
def run_tar_onnx (entry : TokenEntry) (quote : QuoteInfo) : ℚ :=
  let features := extract_features entry quote
  let prediction := features.liquidity_score * (3/10)
    + features.spread_score * (3/10)
    + features.bridge_score * (2/10)
    + features.token_score * (2/10)
  max (min prediction 100) 0

/-- `run_flanker` from `model_bridge.rs` (predictor B): weighted blend,
clamped to `[0, 100]`. -/
def run_flanker (entry : TokenEntry) (quote : QuoteInfo) : ℚ :=
  let features := extract_features entry quote
  let prediction := features.bridge_score * (4/10)
    + features.liquidity_score * (3/10)
    + (100 - features.slippage_penalty) * (2/10)
    + features.gas_efficiency * (1/10)
  max (min prediction 100) 0

/-! ## `omniarb/data_fetcher.rs` -/

/-- `get_token_volatility` from `data_fetcher.rs`. -/
def get_token_volatility (token : Str) : ℚ :=
  if token ∈ ["USDC".data, "USDT".data, "DAI".data] then 1
  else if token ∈ ["ETH".data, "WETH".data, "WBTC".data] then 11/10
  else 13/10

/-- `get_bridge_efficiency` from `data_fetcher.rs`. -/
def get_bridge_efficiency (bridge : Str) : ℚ :=
  if bridge ∈ ["STARGATE".data, "ACROSS".data, "CCIP".data] then 115/100
  else if bridge ∈ ["HOP".data, "SYNAPSE".data, "LIFI".data] then 1
  else 9/10

/-- `estimate_gas_cost` from `data_fetcher.rs`: fixed per-chain USD table with
default `5.0` for unlisted chains. -/
def estimate_gas_cost (chain_id : Nat) : ℚ :=
  if chain_id = 1 then 15
  else if chain_id = 137 then 1/2
  else if chain_id = 42161 then 4/5
  else if chain_id = 10 then 1
  else if chain_id = 8453 then 1/2
  else if chain_id = 56 then 3/10
  else if chain_id = 43114 then 2
  else 5

/-- `simulate_bridge_quote` from `data_fetcher.rs`: the synthetic quote
provider (a pure function of the record). -/
def simulate_bridge_quote (entry : TokenEntry) : QuoteInfo :=
  let base_spread := entry.liquidity_score / 100 * 2 - entry.fee_tier
  let token_factor := get_token_volatility entry.native_token
  let bridge_factor := get_bridge_efficiency entry.bridge_protocol
  { spread_percentage := max (base_spread * token_factor * bridge_factor) 0
    slippage_estimate := (100 - entry.liquidity_score) / 100 * 2
    gas_cost_usd := estimate_gas_cost entry.chain_dest
    available_liquidity := entry.liquidity_score * 10000 }

/-- `fetch_live_quotes` from `data_fetcher.rs`. -/
def fetch_live_quotes (token_matrix : List TokenEntry) : List QuoteInfo :=
  token_matrix.map simulate_bridge_quote

/-! ## `bin/omniarb_engine.rs` — ranking pipeline

The filter/sort stage of `main` operates on `f64` scores, whose behaviour on
NaN is what the ranking claims are about, so here `f64` is modelled as an
extended-rational type with infinities and signed NaN (quiet/signaling NaN of
the same sign and NaN payloads are identified, and signed zeros are identified,
which the pipeline never distinguishes). -/

/-- Model of `f64` for the ranking stage: finite values are exact rationals. -/
inductive F64 where
  | neg_inf
  | finite (q : ℚ)
  | pos_inf
  | nan (negative : Bool)
deriving DecidableEq

/-- Position of each `f64` class in the IEEE 754 `totalOrder` used by
`f64::total_cmp`: negative NaN < `-∞` < finite < `+∞` < positive NaN. -/
def F64.rank : F64 → Nat
  | .nan true => 0
  | .neg_inf => 1
  | .finite _ => 2
  | .pos_inf => 3
  | .nan false => 4

/-- Model of `f64::total_cmp` (IEEE 754 `totalOrder`): finite values compare
numerically; otherwise the class ranks decide, with positive NaN above `+∞`
and negative NaN below `-∞`. -/
def F64.total_cmp (a b : F64) : Ordering :=
  match a, b with
  | .finite x, .finite y => if x < y then .lt else if y < x then .gt else .eq
  | _, _ => compare a.rank b.rank

/-- Model of the IEEE `>=` comparison on `f64` (`PartialOrd`): any comparison
with a NaN is false. -/
def F64.ge : F64 → F64 → Bool
  | .nan _, _ => false
  | _, .nan _ => false
  | .pos_inf, _ => true
  | _, .pos_inf => false
  | _, .neg_inf => true
  | .neg_inf, _ => false
  | .finite x, .finite y => decide (y ≤ x)

/-- One element of `scored_routes` in `main` of `omniarb_engine.rs`:
`(entry, tar_score, onnx prediction, flanker prediction)`. -/
structure ScoredRoute where
  entry : TokenEntry
  score : F64
  model_pred_tar : F64
  model_pred_flank : F64
deriving DecidableEq

/-- The filter stage of `main`: `.filter(|(_, score, _, _)| *score >= 85.0)`. -/
def filter_top (scored : List ScoredRoute) : List ScoredRoute :=
  scored.filter (fun r => r.score.ge (.finite 85))

/-- The comparator closure passed to `sort_by` in `main`:
`|a, b| b.1.total_cmp(&a.1)`; an element `a` may precede `b` exactly when that
comparator does not return `Greater`.  Rust's `sort_by` is a stable sort, so it
is modelled by `List.mergeSort` with this predicate. -/
def sort_routes (routes : List ScoredRoute) : List ScoredRoute :=
  routes.mergeSort (fun a b => F64.total_cmp b.score a.score ≠ .gt)

/-- The full filter-then-sort ranking stage of `main`
(`top_opportunities` after the `sort_by` call). -/
def rank_routes (scored : List ScoredRoute) : List ScoredRoute :=
  sort_routes (filter_top scored)

/-! ## `simulation_engine.rs` -/

/-- `get_provider_tvl` from `simulation_engine.rs`.  The external
`balance_of(...).call().await` outcome is the input: `some balance` for a
successful call, `none` for a failed one.  The Rust function maps a failure to
`Ok(U256::zero())`. -/
def get_provider_tvl (balance_of_outcome : Option Nat) : Except String Nat :=
  match balance_of_outcome with
  | some balance => .ok balance
  | none => .ok 0

/-! ## `commander.rs` — the loan sizer -/

/-- `BALANCER_V3_VAULT` from `config.rs`. -/
def BALANCER_V3_VAULT : Str := "0xbA1333333333a1BA1108E8412f11850A5C319bA9".data

/-- ASCII hexadecimal digit test. -/
def isHexDigit (c : Char) : Bool :=
  c.isDigit || ('a' ≤ c && c ≤ 'f') || ('A' ≤ c && c ≤ 'F')

/-- Model of `&str → Address` parsing (`BALANCER_V3_VAULT.parse()?` in
`optimize_loan_size`): succeeds exactly on an optional `0x` followed by 40 hex
digits.  The parsed 20-byte value itself is never consumed by the modelled
paths (the TVL read is abstracted), so the model only records success. -/
def parse_address (s : Str) : Except String Unit :=
  let hexpart := if "0x".data.isPrefixOf s then s.drop 2 else s
  if hexpart.length = 40 ∧ hexpart.all isHexDigit then .ok ()
  else .error "invalid address"

/-- `TitanCommander::calculate_min_floor`: `500 * 10^decimals`. -/
def calculate_min_floor (decimals : Nat) : Nat := 500 * 10 ^ decimals

/-- Model of the Rust saturating cast `(x : f64) as u128` for an exact-rational
`x`: negative values go to `0`, values above `u128::MAX` saturate, and positive
values truncate toward zero. -/
def u128_sat_cast (x : ℚ) : Nat :=
  if x ≤ 0 then 0 else min (⌊x⌋).toNat (2 ^ 128 - 1)

/-- `TitanCommander::calculate_max_cap`:
`pool_liquidity * ((max_tvl_share * 1000000.0) as u128) / 1000000`. -/
def calculate_max_cap (max_tvl_share : ℚ) (pool_liquidity : Nat) : Nat :=
  let multiplier := u128_sat_cast (max_tvl_share * 1000000)
  pool_liquidity * multiplier / 1000000

/-- `TitanCommander::validate_paper_mode_amount`: floor-only validation used on
the paper-mode path. -/
def validate_paper_mode_amount (requested_amount : Nat) (decimals : Nat) :
    Except String Nat :=
  let min_floor := calculate_min_floor decimals
  if requested_amount < min_floor then .ok 0
  else .ok requested_amount

/-- `TitanCommander::optimize_loan_size`.  The external TVL read
(`get_provider_tvl(...).await`) outcome is passed in as `tvl_read`; the
`Err(_)` arm and the `is_zero()` test both route to
`validate_paper_mode_amount`, otherwise cap then floor are applied. -/
def optimize_loan_size (max_tvl_share : ℚ) (tvl_read : Except String Nat)
    (target_amount_raw : Nat) (decimals : Nat) : Except String Nat :=
  match parse_address BALANCER_V3_VAULT with
  | .error e => .error e
  | .ok _ =>
    match tvl_read with
    | .error _ => validate_paper_mode_amount target_amount_raw decimals
    | .ok pool_liquidity =>
      if pool_liquidity = 0 then validate_paper_mode_amount target_amount_raw decimals
      else
        let max_cap := calculate_max_cap max_tvl_share pool_liquidity
        let requested_amount :=
          if target_amount_raw > max_cap then max_cap else target_amount_raw
        let min_floor := calculate_min_floor decimals
        if requested_amount < min_floor then .ok 0
        else .ok requested_amount

/-! ## `omniarb/matrix_parser.rs` — the matrix loader -/

/-- Numeric value of a list of ASCII decimal digits. -/
def digitsVal (ds : Str) : Nat :=
  ds.foldl (fun acc c => acc * 10 + (c.toNat - 48)) 0

/-- Model of `u64::from_str` (`fields[i].parse()` for the chain ids): an
optional leading `+`, then one or more ASCII digits, failing on overflow past
`u64::MAX`. -/
def parse_u64 (s : Str) : Option Nat :=
  let digits := match s with
    | '+' :: rest => rest
    | _ => s
  if digits ≠ [] ∧ digits.all Char.isDigit then
    let v := digitsVal digits
    if v < 2 ^ 64 then some v else none
  else none

/-- The syntactic pieces of a finite `f64` literal: sign, integer digits,
fraction digits, exponent sign and exponent digits (`none` when the literal
has no exponent part). -/
structure FloatParts where
  neg : Bool
  ip : Str
  fp : Str
  eneg : Bool
  ed : Option Str
deriving DecidableEq

/-- Grammar of `f64::from_str` restricted to its finite-literal fragment: an
optional sign, a decimal mantissa with at least one digit (integer part,
fraction part or both), and an optional decimal exponent.  The special
spellings (`inf`, `NaN`, …) have no exact-rational denotation and are outside
the modelled fragment. -/
def parse_f64_parts (s : Str) : Option FloatParts :=
  let (neg, r0) := match s with
    | '+' :: r => (false, r)
    | '-' :: r => (true, r)
    | r => (false, r)
  let ip := r0.takeWhile Char.isDigit
  let r1 := r0.drop ip.length
  let (fp, r2) := match r1 with
    | '.' :: r => (r.takeWhile Char.isDigit, r.drop (r.takeWhile Char.isDigit).length)
    | r => (([] : Str), r)
  if ip = [] ∧ fp = [] then none
  else
    match r2 with
    | [] => some ⟨neg, ip, fp, false, none⟩
    | e :: r3 =>
      if e = 'e' ∨ e = 'E' then
        let (eneg, r4) := match r3 with
          | '+' :: r => (false, r)
          | '-' :: r => (true, r)
          | r => (false, r)
        let ed := r4.takeWhile Char.isDigit
        let r5 := r4.drop ed.length
        if ed = [] ∨ r5 ≠ [] then none
        else some ⟨neg, ip, fp, eneg, some ed⟩
      else none

/-- Exact rational value denoted by a parsed `f64` literal. -/
def FloatParts.val (p : FloatParts) : ℚ :=
  (if p.neg then -1 else 1)
    * ((digitsVal p.ip : ℚ) + (digitsVal p.fp : ℚ) / 10 ^ p.fp.length)
    * (10 : ℚ) ^ ((if p.eneg then -1 else 1) * (digitsVal (p.ed.getD []) : Int))

/-- Model of `f64::from_str` (`fields[i].parse()` for the two float fields):
parse the literal and take its exact rational value. -/
def parse_f64 (s : Str) : Option ℚ :=
  (parse_f64_parts s).map FloatParts.val

/-- The error values of `load_token_matrix` (its Rust `Err` strings):
a failed `File::open`, or no accepted rows. -/
inductive MatrixError where
  | ioError
  | noValidEntries
deriving DecidableEq

/-- The per-field warnings printed by `load_token_matrix` via `eprintln!`. -/
inductive FieldWarning where
  | invalid_chain_origin
  | invalid_chain_dest
  | invalid_liquidity_score
  | invalid_fee_tier
deriving DecidableEq

/-- The data-section marker line content searched for with
`trimmed.contains("## Data Entries")`. -/
def DATA_MARKER : Str := "## Data Entries".data

/-- The column-header spelling skipped with
`trimmed.starts_with("chain_origin")`. -/
def HEADER_MARK : Str := "chain_origin".data

/-- The CSV-row step of the loader loop: split the trimmed line on `,`; keep
it only when there are exactly 8 fields, parsing each of the four numeric
fields independently with a default (and a warning) on failure. -/
def parse_data_row (trimmed : Str) : Option (TokenEntry × List FieldWarning) :=
  match splitOnChar ',' trimmed with
  | [f0, f1, f2, f3, f4, f5, f6, f7] =>
    let chain_origin := match parse_u64 f0 with
      | some v => (v, ([] : List FieldWarning))
      | none => (0, [.invalid_chain_origin])
    let chain_dest := match parse_u64 f1 with
      | some v => (v, ([] : List FieldWarning))
      | none => (0, [.invalid_chain_dest])
    let liquidity_score := match parse_f64 f6 with
      | some v => (v, ([] : List FieldWarning))
      | none => ((0 : ℚ), [.invalid_liquidity_score])
    let fee_tier := match parse_f64 f7 with
      | some v => (v, ([] : List FieldWarning))
      | none => ((0 : ℚ), [.invalid_fee_tier])
    some ({ chain_origin := chain_origin.1
            chain_dest := chain_dest.1
            native_token := f2
            dex_origin := f3
            dex_dest := f4
            bridge_protocol := f5
            liquidity_score := liquidity_score.1
            fee_tier := fee_tier.1 },
          chain_origin.2 ++ chain_dest.2 ++ liquidity_score.2 ++ fee_tier.2)
  | _ => none

/-- The line loop of `load_token_matrix`, carrying the `in_data_section` flag
and returning the accepted entries together with the emitted warnings. -/
def process_lines : List Str → Bool → List TokenEntry × List FieldWarning
  | [], _ => ([], [])
  | line :: rest, in_data_section =>
    let trimmed := strTrim line
    if trimmed = [] then process_lines rest in_data_section
    else if containsSub DATA_MARKER trimmed then process_lines rest true
    else if ¬ in_data_section then process_lines rest in_data_section
    else if startsWithChar '#' trimmed || HEADER_MARK.isPrefixOf trimmed then
      process_lines rest in_data_section
    else
      match parse_data_row trimmed with
      | some (entry, ws) =>
        let restResult := process_lines rest in_data_section
        (entry :: restResult.1, ws ++ restResult.2)
      | none => process_lines rest in_data_section

/-- `load_token_matrix` from `matrix_parser.rs`.  The `File::open` outcome is
the input: `none` for a missing/unreadable file (the early I/O error), `some
lines` for its text split into lines. -/
def load_token_matrix (file : Option (List Str)) :
    Except MatrixError (List TokenEntry) :=
  match file with
  | none => .error .ioError
  | some lines =>
    let entries := (process_lines lines false).1
    if entries.isEmpty then .error .noValidEntries
    else .ok entries

/-! ## Concrete inputs used by witnesses and counterexamples -/

/-- The record of the spec's determinism example (`token="USDC"`,
`liquidity_score=95.0`, `fee_tier=0.1`, `bridge="STARGATE"`). -/
def entryUSDC : TokenEntry :=
  { chain_origin := 1, chain_dest := 137, native_token := "USDC".data,
    dex_origin := "UNISWAP_V3".data, dex_dest := "QUICKSWAP".data,
    bridge_protocol := "STARGATE".data, liquidity_score := 95, fee_tier := 1/10 }

/-- The quote of the spec's determinism example (`spread=1.5%`,
`slippage=0.3%`). -/
def quoteUSDC : QuoteInfo :=
  { spread_percentage := 3/2, slippage_estimate := 3/10, gas_cost_usd := 5,
    available_liquidity := 1000000 }

/-- A record with a finite but negative liquidity score (the matrix loader
does not bound the field). -/
def entryNegLiq : TokenEntry :=
  { chain_origin := 1, chain_dest := 137, native_token := "ZZZ".data,
    dex_origin := "D1".data, dex_dest := "D2".data, bridge_protocol := "ZZZ".data,
    liquidity_score := -1000, fee_tier := 1 }

/-- A quote with all fields finite. -/
def quoteZero : QuoteInfo :=
  { spread_percentage := 0, slippage_estimate := 5, gas_cost_usd := 5,
    available_liquidity := 0 }

/-- A record with a finite liquidity score above 100 (the matrix loader does
not bound the field). -/
def entryHighLiq : TokenEntry :=
  { chain_origin := 1, chain_dest := 1, native_token := "USDC".data,
    dex_origin := "D1".data, dex_dest := "D2".data,
    bridge_protocol := "STARGATE".data, liquidity_score := 200, fee_tier := 3/10 }

/-! ## Score-bound helper lemmas -/

lemma clamp_bounds (p : ℚ) : 0 ≤ max (min p 100) 0 ∧ max (min p 100) 0 ≤ 100 :=
  ⟨le_max_right _ _, max_le (min_le_right _ _) (by norm_num)⟩

lemma token_quality_nonneg (token : Str) (liq : ℚ) (h : 0 ≤ liq) :
    0 ≤ calculate_token_quality token liq := by
  have hl : 0 ≤ liq / 100 * 15 := by positivity
  rw [calculate_token_quality]
  split_ifs <;> linarith

lemma arb_nonneg (fee spread : ℚ) : 0 ≤ calculate_arbitrage_efficiency fee spread := by
  rw [calculate_arbitrage_efficiency]
  split_ifs <;> norm_num

lemma risk_nonneg (bridge : Str) (slippage : ℚ) : 0 ≤ calculate_risk_score bridge slippage := by
  rw [calculate_risk_score]
  split_ifs <;> norm_num

/-! ## Claim C1 -/

/-- C1 counterexample: with the finite inputs `entryNegLiq`/`quoteZero`
(liquidity score `-1000`, a value the loader accepts), `calculate_tar_score`
returns `-140`, outside the claimed interval `[0, 100]`: the token-quality
component has no lower clamp. -/
theorem C1_counterexample :
    calculate_tar_score entryNegLiq quoteZero = -140
    ∧ calculate_tar_score entryNegLiq quoteZero < 0 := by
  have h : calculate_tar_score entryNegLiq quoteZero = -140 := by
    rw [calculate_tar_score, calculate_token_quality, calculate_arbitrage_efficiency,
      calculate_risk_score]
    rw [if_neg (show ¬ entryNegLiq.native_token ∈ TIER_1_TOKENS from by decide)]
    rw [if_neg (show ¬ entryNegLiq.native_token ∈ TIER_2_TOKENS from by decide)]
    rw [if_neg (show ¬ entryNegLiq.bridge_protocol ∈ TIER_1_BRIDGES from by decide)]
    rw [if_neg (show ¬ entryNegLiq.bridge_protocol ∈ TIER_2_BRIDGES from by decide)]
    norm_num [entryNegLiq, quoteZero]
  exact ⟨h, by rw [h]; norm_num⟩

/-- C1 (amended): the two predictor scores `run_tar_onnx` and `run_flanker`
always lie in `[0, 100]` (they are clamped); `calculate_tar_score` is always
at most 100, and is non-negative whenever the record's liquidity score is
non-negative (in particular throughout its intended `0–100` range) — but a
sufficiently negative finite liquidity score drives it below 0. -/
theorem C1_amended (entry : TokenEntry) (quote : QuoteInfo) :
    calculate_tar_score entry quote ≤ 100
    ∧ (0 ≤ entry.liquidity_score → 0 ≤ calculate_tar_score entry quote)
    ∧ (0 ≤ run_tar_onnx entry quote ∧ run_tar_onnx entry quote ≤ 100)
    ∧ (0 ≤ run_flanker entry quote ∧ run_flanker entry quote ≤ 100) := by
  refine ⟨min_le_right _ _, ?_, clamp_bounds _, clamp_bounds _⟩
  intro h
  have h1 := token_quality_nonneg entry.native_token entry.liquidity_score h
  have h2 := arb_nonneg entry.fee_tier quote.spread_percentage
  have h3 := risk_nonneg entry.bridge_protocol quote.slippage_estimate
  rw [calculate_tar_score]
  exact le_min (by linarith) (by norm_num)

/-- C1 witness: the amended bounds instantiated at the spec's example
record/quote pair. -/
theorem C1_witness :
    0 ≤ calculate_tar_score entryUSDC quoteUSDC
    ∧ calculate_tar_score entryUSDC quoteUSDC ≤ 100
    ∧ 0 ≤ run_tar_onnx entryUSDC quoteUSDC
    ∧ run_flanker entryUSDC quoteUSDC ≤ 100 := by
  obtain ⟨ha, hb, hc, hd⟩ := C1_amended entryUSDC quoteUSDC
  exact ⟨hb (by norm_num [entryUSDC]), ha, hc.1, hd.2⟩

/-! ## Claim C5 -/

/-- C5: on the spec's example inputs the TAR score is exactly
`94.25 = 377/4`, with components `34.25 = 137/4` (token quality), `30`
(arbitrage) and `30` (risk); and the ladder boundaries are strict: at
`fee_tier = 0.15` the fee contribution drops to 10, at `spread = 1.0` the
spread contribution drops to 10, and at `slippage = 0.5` the slippage
contribution drops to 10. -/
theorem C5_exact_score :
    calculate_token_quality entryUSDC.native_token entryUSDC.liquidity_score = 137/4
    ∧ calculate_arbitrage_efficiency entryUSDC.fee_tier quoteUSDC.spread_percentage = 30
    ∧ calculate_risk_score entryUSDC.bridge_protocol quoteUSDC.slippage_estimate = 30
    ∧ calculate_tar_score entryUSDC quoteUSDC = 377/4
    ∧ calculate_arbitrage_efficiency (15/100) 1 = 20
    ∧ calculate_risk_score "STARGATE".data (1/2) = 25 := by
  have h1 : calculate_token_quality entryUSDC.native_token entryUSDC.liquidity_score = 137/4 := by
    rw [calculate_token_quality,
      if_pos (show entryUSDC.native_token ∈ TIER_1_TOKENS from by decide)]
    norm_num [entryUSDC]
  have h2 : calculate_arbitrage_efficiency entryUSDC.fee_tier quoteUSDC.spread_percentage = 30 := by
    rw [calculate_arbitrage_efficiency]
    norm_num [entryUSDC, quoteUSDC]
  have h3 : calculate_risk_score entryUSDC.bridge_protocol quoteUSDC.slippage_estimate = 30 := by
    rw [calculate_risk_score,
      if_pos (show entryUSDC.bridge_protocol ∈ TIER_1_BRIDGES from by decide)]
    norm_num [quoteUSDC]
  refine ⟨h1, h2, h3, ?_, ?_, ?_⟩
  · rw [calculate_tar_score, h1, h2, h3]
    norm_num
  · rw [calculate_arbitrage_efficiency]
    norm_num
  · rw [calculate_risk_score,
      if_pos (show "STARGATE".data ∈ TIER_1_BRIDGES from by decide)]
    norm_num

/-! ## Claim C6 -/

/-- C6 counterexample: on a record with finite liquidity score `200` (accepted
by the loader, which does not enforce the intended `0–100` range) the
synthetic quote's slippage estimate is `-2`, violating the claimed
non-negativity. -/
theorem C6_counterexample :
    (simulate_bridge_quote entryHighLiq).slippage_estimate = -2
    ∧ (simulate_bridge_quote entryHighLiq).slippage_estimate < 0 := by
  have h : (simulate_bridge_quote entryHighLiq).slippage_estimate = -2 := by
    rw [simulate_bridge_quote]
    norm_num [entryHighLiq]
  exact ⟨h, by rw [h]; norm_num⟩

/-- C6 (amended): for every record whose liquidity score lies in the intended
range `[0, 100]`, all four fields of the synthetic quote are non-negative; the
spread is clamped at 0 unconditionally, but the slippage estimate goes
negative for liquidity scores above 100 and the available liquidity goes
negative for liquidity scores below 0. -/
theorem C6_amended (entry : TokenEntry) (h0 : 0 ≤ entry.liquidity_score)
    (h1 : entry.liquidity_score ≤ 100) :
    0 ≤ (simulate_bridge_quote entry).spread_percentage
    ∧ 0 ≤ (simulate_bridge_quote entry).slippage_estimate
    ∧ 0 ≤ (simulate_bridge_quote entry).gas_cost_usd
    ∧ 0 ≤ (simulate_bridge_quote entry).available_liquidity := by
  simp only [simulate_bridge_quote]
  refine ⟨le_max_right _ _, ?_, ?_, ?_⟩
  · have : (0 : ℚ) ≤ 100 - entry.liquidity_score := by linarith
    positivity
  · rw [estimate_gas_cost]
    split_ifs <;> norm_num
  · exact mul_nonneg h0 (by norm_num)

/-- C6 witness: the amended non-negativity instantiated at the spec's example
record. -/
theorem C6_witness :
    0 ≤ (simulate_bridge_quote entryUSDC).spread_percentage
    ∧ 0 ≤ (simulate_bridge_quote entryUSDC).slippage_estimate
    ∧ 0 ≤ (simulate_bridge_quote entryUSDC).gas_cost_usd
    ∧ 0 ≤ (simulate_bridge_quote entryUSDC).available_liquidity :=
  C6_amended entryUSDC (by norm_num [entryUSDC]) (by norm_num [entryUSDC])

/-! ## Claim C2 -/

/-- A route scored `90.0`. -/
def routeNinety : ScoredRoute := ⟨entryUSDC, .finite 90, .finite 0, .finite 0⟩

/-- A route scored NaN (the positive quiet NaN that Rust float operations
produce by default). -/
def routeNan : ScoredRoute := ⟨entryUSDC, .nan false, .finite 0, .finite 0⟩

/-- C2 counterexample: `total_cmp` places positive NaN above every real
(IEEE 754 `totalOrder`), so the pipeline's descending sort, applied to a
route scored `90.0` and a route scored (positive) NaN, orders the NaN route
first, not after the 90.0 route: the comparator does not treat NaN as
strictly less than every real number. -/
theorem C2_counterexample :
    F64.total_cmp (.nan false) (.finite 90) = .gt
    ∧ sort_routes [routeNinety, routeNan] = [routeNan, routeNinety] := by
  constructor
  · decide
  · simp [sort_routes, List.mergeSort, List.merge, F64.total_cmp, F64.rank,
      routeNinety, routeNan]
    decide

/-- C2 (amended): under `total_cmp` a positive NaN is greater than every real
number (and a negative NaN smaller), so the descending sort alone can place a
NaN-scored route first; however, the ranking pipeline filters by
`tar_score >= 85.0` before sorting and every comparison with NaN is false, so
a NaN-scored route never appears anywhere in the ranked output — in
particular never first. -/
theorem C2_amended (scored : List ScoredRoute) (r : ScoredRoute)
    (h : r ∈ rank_routes scored) (b : Bool) : r.score ≠ .nan b := by
  rw [rank_routes, sort_routes, List.mem_mergeSort, filter_top, List.mem_filter] at h
  intro hnan
  have hge := h.2
  rw [hnan] at hge
  simp [F64.ge] at hge

/-- C2 witness: the amended no-NaN-in-output property instantiated on the
two-route list of the claim; the 90.0-scored route is the ranked output's
only element. -/
theorem C2_witness : routeNinety.score ≠ .nan false := by
  have hmem : routeNinety ∈ rank_routes [routeNinety, routeNan] := by
    rw [rank_routes, show filter_top [routeNinety, routeNan] = [routeNinety] from rfl]
    simp [sort_routes, List.mergeSort]
  exact C2_amended [routeNinety, routeNan] routeNinety hmem false

/-! ## Claims C3, C4, C9, C10 — the loan sizer -/

lemma vault_address_ok : parse_address BALANCER_V3_VAULT = .ok () := rfl

lemma multiplier_eq (share : ℚ) (hs0 : 0 < share) (hs1 : share ≤ 1) :
    u128_sat_cast (share * 1000000) = (⌊share * 1000000⌋).toNat := by
  rw [u128_sat_cast, if_neg (by nlinarith : ¬ share * 1000000 ≤ 0)]
  have hx : share * 1000000 ≤ 1000000 := by nlinarith
  have hfl : ⌊share * 1000000⌋ ≤ 1000000 :=
    le_trans (Int.floor_le_floor hx) (by norm_num)
  have : (⌊share * 1000000⌋).toNat ≤ 1000000 := by omega
  exact min_eq_left (le_trans this (by norm_num))

/-- C3: with a successful nonzero liquidity read, the cap is
`pool * ⌊share·10^6⌋ / 10^6` (the share is truncated to parts-per-million
before the exact integer multiply/divide), the requested amount is scaled
down to exactly the cap when it exceeds it (i.e. `min target cap`), and the
returned amount is 0 exactly when the possibly-scaled amount is below the
floor `500·10^decimals`, otherwise that amount itself. -/
theorem C3_cap_then_floor (share : ℚ) (hs0 : 0 < share) (hs1 : share ≤ 1)
    (pool target decimals : Nat) (hpool : pool ≠ 0) :
    calculate_max_cap share pool = pool * (⌊share * 1000000⌋).toNat / 1000000
    ∧ optimize_loan_size share (.ok pool) target decimals
        = .ok (if min target (calculate_max_cap share pool) < 500 * 10 ^ decimals
               then 0
               else min target (calculate_max_cap share pool)) := by
  constructor
  · rw [calculate_max_cap, multiplier_eq share hs0 hs1]
  · simp only [optimize_loan_size, vault_address_ok]
    rw [if_neg hpool]
    have hmin : (if target > calculate_max_cap share pool
        then calculate_max_cap share pool else target)
        = min target (calculate_max_cap share pool) := by
      split_ifs with h <;> omega
    rw [calculate_min_floor, hmin]
    split_ifs <;> rfl

/-- C3 witness: the spec's boundary example with small consistent units —
`share = 0.20`, pool liquidity `1,000,000`, request `300,000`, `decimals = 2`:
the cap is `200,000`, the request is scaled down to it, and it clears the
floor `50,000`. -/
theorem C3_witness :
    optimize_loan_size (1/5 : ℚ) (.ok 1000000) 300000 2 = .ok 200000
    ∧ calculate_max_cap (1/5 : ℚ) 1000000 = 200000 := by
  obtain ⟨hcap, hopt⟩ :=
    C3_cap_then_floor (1/5) (by norm_num) (by norm_num) 1000000 300000 2 (by norm_num)
  have hc : calculate_max_cap (1/5 : ℚ) 1000000 = 200000 := by
    rw [hcap]
    rw [show ⌊(1/5 : ℚ) * 1000000⌋ = 200000 by norm_num]
    rfl
  rw [hopt, hc]
  norm_num

/-- C4: when the external liquidity read fails, or succeeds with exactly
zero, the sizer validates the requested amount against the floor
`500·10^decimals` only — returning 0 below the floor and the request
unchanged otherwise — and in both cases the result is an `Ok` value, never a
propagated error. -/
theorem C4_paper_fallback (share : ℚ) (e : String) (target decimals : Nat) :
    optimize_loan_size share (.error e) target decimals
      = .ok (if target < 500 * 10 ^ decimals then 0 else target)
    ∧ optimize_loan_size share (.ok 0) target decimals
      = .ok (if target < 500 * 10 ^ decimals then 0 else target) := by
  constructor <;>
  · simp only [optimize_loan_size, vault_address_ok, validate_paper_mode_amount,
      calculate_min_floor, if_pos rfl]
    split_ifs <;> rfl

/-- C9: for any `max_tvl_share` in `(0, 1]`, the truncating
parts-per-million quantization never yields a multiplier above `10^6`, so
the computed cap never exceeds the pool's liquidity. -/
theorem C9_cap_le_pool (share : ℚ) (hs0 : 0 < share) (hs1 : share ≤ 1) (pool : Nat) :
    u128_sat_cast (share * 1000000) ≤ 1000000
    ∧ calculate_max_cap share pool ≤ pool := by
  have hm : u128_sat_cast (share * 1000000) ≤ 1000000 := by
    rw [multiplier_eq share hs0 hs1]
    have hx : share * 1000000 ≤ 1000000 := by nlinarith
    have hfl : ⌊share * 1000000⌋ ≤ 1000000 :=
      le_trans (Int.floor_le_floor hx) (by norm_num)
    omega
  refine ⟨hm, ?_⟩
  rw [calculate_max_cap]
  calc pool * u128_sat_cast (share * 1000000) / 1000000
      ≤ pool * 1000000 / 1000000 :=
        Nat.div_le_div_right (Nat.mul_le_mul_left _ hm)
    _ = pool := by omega

/-- C9 witness: the bound instantiated at `share = 0.20`,
`pool = 777` raw units. -/
theorem C9_witness :
    u128_sat_cast ((1/5 : ℚ) * 1000000) ≤ 1000000
    ∧ calculate_max_cap (1/5 : ℚ) 777 ≤ 777 :=
  C9_cap_le_pool (1/5) (by norm_num) (by norm_num) 777

/-- C10: the standalone TVL reader maps every call outcome — including a
failed `balance_of` call — to an `Ok` value (a failure becomes `Ok 0`), so
composed with the sizer, the sizer's `Err` fallback arm can never be taken:
a failed read reaches the sizer as a successful zero reading, and both
documented fallback triggers collapse into the single zero-liquidity
paper-mode path. -/
theorem C10_reader_total :
    (∀ outcome : Option Nat, get_provider_tvl outcome = .ok (outcome.getD 0))
    ∧ (∀ (share : ℚ) (target decimals : Nat) (outcome : Option Nat),
        optimize_loan_size share (get_provider_tvl outcome) target decimals
          = optimize_loan_size share (.ok (outcome.getD 0)) target decimals)
    ∧ (∀ (share : ℚ) (e : String) (target decimals : Nat),
        optimize_loan_size share (.error e) target decimals
          = optimize_loan_size share (.ok 0) target decimals) := by
  refine ⟨?_, ?_, ?_⟩
  · intro outcome
    cases outcome <;> rfl
  · intro share target decimals outcome
    cases outcome <;> rfl
  · intro share e target decimals
    rfl

/-! ## Claims C7, C8 — the matrix loader -/

lemma parse_data_row_ne_eight (t : Str) (h : (splitOnChar ',' t).length ≠ 8) :
    parse_data_row t = none := by
  rw [parse_data_row]
  rcases hs : splitOnChar ',' t with
    _ | ⟨a0, _ | ⟨a1, _ | ⟨a2, _ | ⟨a3, _ | ⟨a4, _ | ⟨a5, _ | ⟨a6, _ | ⟨a7, _ | ⟨a8, t9⟩⟩⟩⟩⟩⟩⟩⟩⟩
  all_goals first
    | rfl
    | exact absurd (by rw [hs]; rfl) h

/-- C7: in the loader loop, a data row whose comma-split field count is not 8
is skipped without any error and without affecting the rest of the file; an
8-field row is always included, with each of the four numeric fields parsed
independently — a failing field is replaced by its default (`0` for the chain
ids, `0.0` for the floats) with a warning for exactly that field, while the
string fields and the other numeric fields keep their parsed values. -/
theorem C7_field_tolerance (line : Str)
    (hne : strTrim line ≠ [])
    (hmark : containsSub DATA_MARKER (strTrim line) = false)
    (hhash : startsWithChar '#' (strTrim line) = false)
    (hhdr : HEADER_MARK.isPrefixOf (strTrim line) = false) :
    ((splitOnChar ',' (strTrim line)).length ≠ 8 →
      parse_data_row (strTrim line) = none
      ∧ ∀ (rest : List Str) (b : Bool),
          process_lines (line :: rest) b = process_lines rest b)
    ∧ ∀ f0 f1 f2 f3 f4 f5 f6 f7,
        splitOnChar ',' (strTrim line) = [f0, f1, f2, f3, f4, f5, f6, f7] →
        ∃ ws,
          parse_data_row (strTrim line) =
            some ({ chain_origin := (parse_u64 f0).getD 0
                    chain_dest := (parse_u64 f1).getD 0
                    native_token := f2
                    dex_origin := f3
                    dex_dest := f4
                    bridge_protocol := f5
                    liquidity_score := (parse_f64 f6).getD 0
                    fee_tier := (parse_f64 f7).getD 0 }, ws)
          ∧ (FieldWarning.invalid_chain_origin ∈ ws ↔ parse_u64 f0 = none)
          ∧ (FieldWarning.invalid_chain_dest ∈ ws ↔ parse_u64 f1 = none)
          ∧ (FieldWarning.invalid_liquidity_score ∈ ws ↔ parse_f64 f6 = none)
          ∧ (FieldWarning.invalid_fee_tier ∈ ws ↔ parse_f64 f7 = none)
          ∧ ∀ rest : List Str,
              process_lines (line :: rest) true =
                ({ chain_origin := (parse_u64 f0).getD 0
                   chain_dest := (parse_u64 f1).getD 0
                   native_token := f2
                   dex_origin := f3
                   dex_dest := f4
                   bridge_protocol := f5
                   liquidity_score := (parse_f64 f6).getD 0
                   fee_tier := (parse_f64 f7).getD 0 } :: (process_lines rest true).1,
                 ws ++ (process_lines rest true).2) := by
  constructor
  · intro hlen
    have hpd := parse_data_row_ne_eight _ hlen
    refine ⟨hpd, ?_⟩
    intro rest b
    cases b
    · simp [process_lines, hne, hmark]
    · simp [process_lines, hne, hmark, hhash, hhdr, hpd]
  · intro f0 f1 f2 f3 f4 f5 f6 f7 heq
    have hpd : parse_data_row (strTrim line) =
        some ({ chain_origin := (parse_u64 f0).getD 0
                chain_dest := (parse_u64 f1).getD 0
                native_token := f2
                dex_origin := f3
                dex_dest := f4
                bridge_protocol := f5
                liquidity_score := (parse_f64 f6).getD 0
                fee_tier := (parse_f64 f7).getD 0 },
              (if parse_u64 f0 = none then [FieldWarning.invalid_chain_origin] else [])
              ++ (if parse_u64 f1 = none then [FieldWarning.invalid_chain_dest] else [])
              ++ (if parse_f64 f6 = none then [FieldWarning.invalid_liquidity_score] else [])
              ++ (if parse_f64 f7 = none then [FieldWarning.invalid_fee_tier] else [])) := by
      rw [parse_data_row, heq]
      rcases hp0 : parse_u64 f0 with _ | v0 <;>
        rcases hp1 : parse_u64 f1 with _ | v1 <;>
          rcases hp6 : parse_f64 f6 with _ | v6 <;>
            rcases hp7 : parse_f64 f7 with _ | v7 <;>
              simp [hp0, hp1, hp6, hp7]
    refine ⟨_, hpd, ?_, ?_, ?_, ?_, ?_⟩
    · rcases hp0 : parse_u64 f0 with _ | v0 <;>
        rcases hp1 : parse_u64 f1 with _ | v1 <;>
          rcases hp6 : parse_f64 f6 with _ | v6 <;>
            rcases hp7 : parse_f64 f7 with _ | v7 <;>
              simp [hp0, hp1, hp6, hp7]
    · rcases hp0 : parse_u64 f0 with _ | v0 <;>
        rcases hp1 : parse_u64 f1 with _ | v1 <;>
          rcases hp6 : parse_f64 f6 with _ | v6 <;>
            rcases hp7 : parse_f64 f7 with _ | v7 <;>
              simp [hp0, hp1, hp6, hp7]
    · rcases hp0 : parse_u64 f0 with _ | v0 <;>
        rcases hp1 : parse_u64 f1 with _ | v1 <;>
          rcases hp6 : parse_f64 f6 with _ | v6 <;>
            rcases hp7 : parse_f64 f7 with _ | v7 <;>
              simp [hp0, hp1, hp6, hp7]
    · rcases hp0 : parse_u64 f0 with _ | v0 <;>
        rcases hp1 : parse_u64 f1 with _ | v1 <;>
          rcases hp6 : parse_f64 f6 with _ | v6 <;>
            rcases hp7 : parse_f64 f7 with _ | v7 <;>
              simp [hp0, hp1, hp6, hp7]
    · intro rest
      simp [process_lines, hne, hmark, hhash, hhdr, hpd]

/-- A data row whose liquidity-score field (`abc`) and fee-tier field (`bad`)
both fail to parse. -/
def c7row : Str := "1,137,USDC,UNISWAP_V3,QUICKSWAP,STARGATE,abc,bad".data

/-- A 7-field row (one field short), silently discarded by the loader. -/
def c7badrow : Str := "1,137,USDC,UNISWAP_V3,QUICKSWAP,STARGATE,95.0".data

/-- The entry the loader produces for `c7row`: defaults for the two failing
float fields, parsed values everywhere else. -/
def c7entry : TokenEntry :=
  { chain_origin := 1, chain_dest := 137, native_token := "USDC".data,
    dex_origin := "UNISWAP_V3".data, dex_dest := "QUICKSWAP".data,
    bridge_protocol := "STARGATE".data, liquidity_score := 0, fee_tier := 0 }

/-- C7 witness: the two behaviours at concrete rows — a row with unparseable
liquidity-score and fee-tier fields is retained with those two fields
defaulted and exactly those two warnings; a 7-field row is dropped without
error. -/
theorem C7_witness :
    process_lines [c7row] true =
      ([c7entry], [FieldWarning.invalid_liquidity_score, FieldWarning.invalid_fee_tier])
    ∧ process_lines [c7badrow] true = ([], []) := by
  constructor
  · obtain ⟨ws, hpd, hio, hid, hiq, hif, hpl⟩ :=
      (C7_field_tolerance c7row (by decide) (by decide) (by decide) (by decide)).2
        "1".data "137".data "USDC".data "UNISWAP_V3".data "QUICKSWAP".data "STARGATE".data
        "abc".data "bad".data (by decide)
    have hconc : parse_data_row (strTrim c7row) =
        some (c7entry, [FieldWarning.invalid_liquidity_score, FieldWarning.invalid_fee_tier]) := by
      decide
    rw [hconc] at hpd
    have hpair := Option.some.inj hpd
    have hrec := congrArg Prod.fst hpair
    have hws := congrArg Prod.snd hpair
    simp only at hrec hws
    have h0 := hpl []
    rw [← hrec, ← hws] at h0
    simpa using h0
  · have h := ((C7_field_tolerance c7badrow (by decide) (by decide) (by decide) (by decide)).1
      (by decide)).2 [] true
    exact h.trans rfl

/-- C8: the loader returns the no-valid-entries error exactly when the file
was readable but zero rows were accepted over the whole file; a successful
result is therefore a non-empty list; and a missing/unreadable file yields
the I/O open error. -/
theorem C8_failure_modes :
    load_token_matrix none = .error .ioError
    ∧ (∀ lines, load_token_matrix (some lines) = .error .noValidEntries
        ↔ (process_lines lines false).1 = [])
    ∧ ∀ lines entries, load_token_matrix (some lines) = .ok entries → entries ≠ [] := by
  refine ⟨rfl, ?_, ?_⟩
  · intro lines
    rw [load_token_matrix]
    by_cases hE : (process_lines lines false).1 = []
    · simp [hE]
    · simp [List.isEmpty_iff, hE]
  · intro lines entries h
    rw [load_token_matrix] at h
    by_cases hE : (process_lines lines false).1 = []
    · simp [hE] at h
    · simp [List.isEmpty_iff, hE] at h
      exact fun hnil => hE (h.trans hnil)

/-- C8 witness: a readable file holding only the data-section marker (zero
accepted rows) fails with the no-valid-entries error; a readable file with
one accepted row yields a non-empty success. -/
theorem C8_witness :
    load_token_matrix (some [DATA_MARKER]) = .error .noValidEntries
    ∧ ([c7entry] : List TokenEntry) ≠ [] := by
  refine ⟨(C8_failure_modes.2.1 [DATA_MARKER]).mpr (by rfl),
          C8_failure_modes.2.2 [DATA_MARKER, c7row] [c7entry] (by rfl)⟩

end Titan
